import Mathlib

/-!
Shallow embedding of the task lifecycle and authorization core of the
ghana-task-hub backend (`src/backend/app/api/v1/tasks.py` together with the
enums of `src/backend/app/models/task.py`).

Modelling conventions:
* money (`priceGHS`, `platformFeeGHS`, the search price bounds) is embedded as
  exact decimal arithmetic over `ℚ`; the decimal literals appearing in the code
  (`0.05`, `10`) are exact in this embedding;
* timestamps (`scheduledAt`, `createdAt`, `updatedAt`, the `NOW()` stamp) are
  `Nat` values passed explicitly; a Python `datetime` object is always truthy,
  which the update path reflects;
* the database table of tasks is a `List Task`; `SELECT ... WHERE id = :id`
  with `fetchone` is `List.find?`, `UPDATE ... WHERE id = :id` is a `List.map`
  guarded on the id, `ORDER BY "createdAt" DESC` is an insertion sort by the
  descending-creation relation, `LIMIT`/`OFFSET` are `take`/`drop`;
* request validation performed by the pydantic validators runs before the
  endpoint body, hence before any storage access, and is modelled as a guard
  at the head of the operation;
* endpoint outcomes are `Except ApiError`, with the error taxonomy of the
  HTTP layer (401/403/404/400/500 as kinds, not numbers).
-/

namespace TaskHub

/-- Roles carried by a verified token (`payload.get("role")`). -/
inductive Role
  | CLIENT
  | TASKER
  | ADMIN
deriving DecidableEq, Repr

/-- `TaskStatus` enum of `app/models/task.py`. -/
inductive TaskStatus
  | CREATED
  | ASSIGNED
  | EN_ROUTE
  | ON_SITE
  | IN_PROGRESS
  | COMPLETED
  | CANCELLED
  | DISPUTED
deriving DecidableEq, Repr

/-- `TaskPriority` enum of `app/models/task.py`. -/
inductive TaskPriority
  | LOW
  | MEDIUM
  | HIGH
  | URGENT
deriving DecidableEq, Repr

/-- Error kinds of the HTTP error taxonomy. -/
inductive ApiError
  | Unauthenticated
  | Forbidden
  | NotFound
  | BadRequest
  | StorageError
deriving DecidableEq, Repr

instance {ε α : Type} [DecidableEq ε] [DecidableEq α] : DecidableEq (Except ε α) := fun a b =>
  match a, b with
  | Except.error e, Except.error f => decidable_of_iff (e = f) (by simp)
  | Except.error _, Except.ok _ => isFalse (fun h => Except.noConfusion h)
  | Except.ok _, Except.error _ => isFalse (fun h => Except.noConfusion h)
  | Except.ok x, Except.ok y => decidable_of_iff (x = y) (by simp)

/-- The `(subject, role)` pair produced by `get_current_user`. -/
structure Caller where
  userId : String
  role : Role
deriving DecidableEq, Repr

/-- A persisted task row (columns of the `tasks` table that the endpoints
read or write). -/
structure Task where
  id : String
  title : String
  description : String
  clientId : String
  taskerId : Option String
  categoryId : String
  addressId : String
  scheduledAt : Nat
  durationEstMins : Int
  status : TaskStatus
  priority : TaskPriority
  isUrgent : Bool
  priceGHS : ℚ
  platformFeeGHS : ℚ
  currency : String
  location : Option String
  createdAt : Nat
  updatedAt : Option Nat
deriving DecidableEq, Repr

/-- Python `str(x)` on a nullable id column: `str(None)` is `"None"`. -/
def strOfOptId : Option String → String
  | none => "None"
  | some s => s

/-- Python truthiness of an optional string: `None` and `""` are falsy. -/
def truthyStr : Option String → Bool
  | none => false
  | some s => !(s == "")

/-- Python truthiness of an optional int: `None` and `0` are falsy. -/
def truthyInt : Option Int → Bool
  | none => false
  | some n => !(n == 0)

/-- Python truthiness of an optional float: `None` and `0.0` are falsy. -/
def truthyRat : Option ℚ → Bool
  | none => false
  | some q => !(q == 0)

/-- Request body of `POST /tasks` (`TaskCreateRequest`). -/
structure TaskCreateRequest where
  title : String
  description : String
  categoryId : String
  addressId : String
  scheduledAt : Nat
  durationEstMins : Int
  priceGHS : ℚ
  priority : TaskPriority := TaskPriority.MEDIUM
  isUrgent : Bool := false
  location : Option String := none
deriving DecidableEq, Repr

/-- The pydantic validators of `TaskCreateRequest`: title at least 5 chars,
description at least 20 chars, price at least 10. -/
def validCreate (r : TaskCreateRequest) : Bool :=
  !(r.title.length < 5) && !(r.description.length < 20) && !(r.priceGHS < 10)

/-- `platform_fee = request.priceGHS * 0.05`. -/
def computeFee (price : ℚ) : ℚ :=
  price * (5 / 100)

/-- The `task_data` row assembled by `create_task`: fresh id, caller forced as
`clientId`, status `CREATED`, fee computed from the price, currency `"GHS"`,
`taskerId` null, `createdAt` stamped by the store, `updatedAt` null. -/
def mkTask (newId : String) (now : Nat) (r : TaskCreateRequest) (caller : Caller) : Task :=
  { id := newId
    title := r.title
    description := r.description
    clientId := caller.userId
    taskerId := none
    categoryId := r.categoryId
    addressId := r.addressId
    scheduledAt := r.scheduledAt
    durationEstMins := r.durationEstMins
    status := TaskStatus.CREATED
    priority := r.priority
    isUrgent := r.isUrgent
    priceGHS := r.priceGHS
    platformFeeGHS := computeFee r.priceGHS
    currency := "GHS"
    location := r.location
    createdAt := now
    updatedAt := none }

/-- `POST /tasks` (`create_task`): pydantic validation happens before the
endpoint body (hence before any storage access); the handler itself performs
no role check and inserts the assembled row. -/
def create_task (newId : String) (now : Nat) (r : TaskCreateRequest)
    (caller : Caller) (db : List Task) : Except ApiError (Task × List Task) :=
  if !(validCreate r) then
    Except.error ApiError.BadRequest
  else
    let t := mkTask newId now r caller
    Except.ok (t, db ++ [t])

/-- Request body of `PUT /tasks/{id}` (`TaskUpdateRequest`): every field
optional. -/
structure TaskUpdateRequest where
  title : Option String := none
  description : Option String := none
  scheduledAt : Option Nat := none
  durationEstMins : Option Int := none
  priceGHS : Option ℚ := none
  priority : Option TaskPriority := none
  isUrgent : Option Bool := none
  status : Option TaskStatus := none
deriving DecidableEq, Repr

/-- Which patch fields produce a `SET` clause in `update_task`: each guard is
the Python truthiness test of the handler (`if request.title:` and so on);
`isUrgent` alone is tested with `is not None`; `scheduledAt` is a `datetime`,
which is always truthy when present; `priority` and `status` are enum members,
always truthy when present. -/
def hasUpdateFields (r : TaskUpdateRequest) : Bool :=
  truthyStr r.title || truthyStr r.description || r.scheduledAt.isSome ||
    truthyInt r.durationEstMins || truthyRat r.priceGHS || r.priority.isSome ||
    r.isUrgent.isSome || r.status.isSome

/-- The row produced by the generated `UPDATE` statement: each field present
and truthy in the patch is written, every other column keeps its value, and
`"updatedAt" = NOW()` is always stamped. -/
def applyPatch (r : TaskUpdateRequest) (now : Nat) (t : Task) : Task :=
  { t with
    title := if truthyStr r.title then r.title.getD t.title else t.title
    description :=
      if truthyStr r.description then r.description.getD t.description else t.description
    scheduledAt :=
      match r.scheduledAt with
      | some v => v
      | none => t.scheduledAt
    durationEstMins :=
      if truthyInt r.durationEstMins then r.durationEstMins.getD t.durationEstMins
      else t.durationEstMins
    priceGHS := if truthyRat r.priceGHS then r.priceGHS.getD t.priceGHS else t.priceGHS
    priority :=
      match r.priority with
      | some p => p
      | none => t.priority
    isUrgent :=
      match r.isUrgent with
      | some b => b
      | none => t.isUrgent
    status :=
      match r.status with
      | some s => s
      | none => t.status
    updatedAt := some now }

/-- The permission test of `update_task`, exactly as written in the source:

`(role == "CLIENT" and str(task.clientId) != user) and
 (role == "TASKER" and str(task.taskerId) != user)`

(the two clauses are joined by `and`; the comment above it in the source says
clients may update their own tasks and taskers their assigned tasks). -/
def updateForbidden (caller : Caller) (task : Task) : Bool :=
  (decide (caller.role = Role.CLIENT) && !(task.clientId == caller.userId)) &&
    (decide (caller.role = Role.TASKER) && !(strOfOptId task.taskerId == caller.userId))

/-- `PUT /tasks/{id}` (`update_task`): fetch the row (404 when absent), run
the permission test (403), reject a patch that generates no `SET` clause
(400), otherwise execute the generated `UPDATE` against every row matching
the id. -/
def update_task (taskId : String) (r : TaskUpdateRequest) (caller : Caller)
    (now : Nat) (db : List Task) : Except ApiError (List Task) :=
  match db.find? (fun t => t.id == taskId) with
  | none => Except.error ApiError.NotFound
  | some task =>
    if updateForbidden caller task then
      Except.error ApiError.Forbidden
    else if !(hasUpdateFields r) then
      Except.error ApiError.BadRequest
    else
      Except.ok (db.map (fun t => if t.id == taskId then applyPatch r now t else t))

/-- `DELETE /tasks/{id}` (`delete_task`): fetch the row (404 when absent),
forbid when `str(task.clientId) != current_user["user_id"]` (no role is
consulted), otherwise set status `CANCELLED` and stamp `updatedAt`. -/
def delete_task (taskId : String) (caller : Caller) (now : Nat)
    (db : List Task) : Except ApiError (List Task) :=
  match db.find? (fun t => t.id == taskId) with
  | none => Except.error ApiError.NotFound
  | some task =>
    if !(task.clientId == caller.userId) then
      Except.error ApiError.Forbidden
    else
      Except.ok (db.map (fun t =>
        if t.id == taskId then
          { t with status := TaskStatus.CANCELLED, updatedAt := some now }
        else t))

/-- Does the character list `pat` start the character list `hay`? -/
def charsStartWith : List Char → List Char → Bool
  | [], _ => true
  | _ :: _, [] => false
  | a :: as, b :: bs => a == b && charsStartWith as bs

/-- Does the character list `pat` occur inside the character list `hay`? -/
def charsContain (pat : List Char) : List Char → Bool
  | [] => charsStartWith pat []
  | b :: rest => charsStartWith pat (b :: rest) || charsContain pat rest

/-- SQL `hay ILIKE '%pat%'`: case-insensitive substring containment. -/
def containsCI (hay pat : String) : Bool :=
  charsContain pat.toLower.toList hay.toLower.toList

/-- Query parameters of `GET /tasks`, with the declared defaults. -/
structure TaskSearchRequest where
  query : Option String := none
  categoryId : Option String := none
  status : Option TaskStatus := none
  clientId : Option String := none
  taskerId : Option String := none
  minPrice : Option ℚ := none
  maxPrice : Option ℚ := none
  location : Option String := none
  priority : Option TaskPriority := none
  isUrgent : Option Bool := none
  page : Nat := 1
  limit : Nat := 20
deriving DecidableEq, Repr

/-- The conjunction of `WHERE` clauses built by `get_tasks`: a clause is added
only when the query parameter is truthy (`if query:`, `if minPrice:` …), with
`isUrgent` alone tested by `is not None`; a `NULL` column never satisfies an
equality or `ILIKE` clause. -/
def matchesFilter (f : TaskSearchRequest) (t : Task) : Bool :=
  (if truthyStr f.query then
      containsCI t.title (f.query.getD "") || containsCI t.description (f.query.getD "")
    else true) &&
  (if truthyStr f.categoryId then t.categoryId == f.categoryId.getD "" else true) &&
  (match f.status with
    | some s => t.status == s
    | none => true) &&
  (if truthyStr f.clientId then t.clientId == f.clientId.getD "" else true) &&
  (if truthyStr f.taskerId then t.taskerId == some (f.taskerId.getD "") else true) &&
  (if truthyRat f.minPrice then decide (f.minPrice.getD 0 ≤ t.priceGHS) else true) &&
  (if truthyRat f.maxPrice then decide (t.priceGHS ≤ f.maxPrice.getD 0) else true) &&
  (if truthyStr f.location then
      match t.location with
      | some l => containsCI l (f.location.getD "")
      | none => false
    else true) &&
  (match f.priority with
    | some p => t.priority == p
    | none => true) &&
  (match f.isUrgent with
    | some b => t.isUrgent == b
    | none => true)

/-- `ORDER BY "createdAt" DESC` over the row list. -/
def sortByCreatedDesc (l : List Task) : List Task :=
  List.insertionSort (fun a b => b.createdAt ≤ a.createdAt) l

/-- The response envelope of `GET /tasks`. -/
structure TaskListResponse where
  data : List Task
  total : Nat
  page : Nat
  limit : Nat
  totalPages : Nat
deriving DecidableEq, Repr

/-- `GET /tasks` (`get_tasks`): filter, order by creation time descending,
apply `LIMIT :limit OFFSET :offset` with `offset = (page - 1) * limit`, count
all matches for `total`, and report `totalPages = (total + limit - 1) // limit`.
The route declares `page ≥ 1` and `1 ≤ limit ≤ 50`. -/
def get_tasks (f : TaskSearchRequest) (db : List Task) : TaskListResponse :=
  let ms := db.filter (matchesFilter f)
  let items := ((sortByCreatedDesc ms).drop ((f.page - 1) * f.limit)).take f.limit
  { data := items
    total := ms.length
    page := f.page
    limit := f.limit
    totalPages := (ms.length + f.limit - 1) / f.limit }

/-- `GET /tasks/{id}` (`get_task`): fetch by id, 404 when absent. -/
def get_task (taskId : String) (db : List Task) : Except ApiError Task :=
  match db.find? (fun t => t.id == taskId) with
  | none => Except.error ApiError.NotFound
  | some task => Except.ok task

/-! ## Helper lemmas -/

/-- The permission test of `update_task` would require the caller's role to be
`CLIENT` and `TASKER` at once, so it can never fire. -/
theorem updateForbidden_eq_false (caller : Caller) (task : Task) :
    updateForbidden caller task = false := by
  rcases caller with ⟨u, r⟩
  cases r <;> simp [updateForbidden]

/-- `(t + l - 1) / l` is the ceiling of `t / l`. -/
theorem pages_eq_ceil (t l : ℕ) (hl : 1 ≤ l) :
    (t + l - 1) / l = ⌈(t : ℚ) / (l : ℚ)⌉₊ := by
  have hl0 : 0 < l := hl
  have hlq : (0 : ℚ) < (l : ℚ) := by exact_mod_cast hl0
  apply le_antisymm
  · have h1 : (t : ℚ) / l ≤ (⌈(t : ℚ) / (l : ℚ)⌉₊ : ℚ) := Nat.le_ceil _
    have h2 : (t : ℚ) ≤ (⌈(t : ℚ) / (l : ℚ)⌉₊ : ℚ) * l := (div_le_iff₀ hlq).mp h1
    have h3 : t ≤ ⌈(t : ℚ) / (l : ℚ)⌉₊ * l := by exact_mod_cast h2
    have h4 : t + l - 1 < (⌈(t : ℚ) / (l : ℚ)⌉₊ + 1) * l := by
      calc t + l - 1 < t + l := Nat.sub_lt (by omega) one_pos
        _ ≤ ⌈(t : ℚ) / (l : ℚ)⌉₊ * l + l := Nat.add_le_add_right h3 l
        _ = (⌈(t : ℚ) / (l : ℚ)⌉₊ + 1) * l := by ring
    exact Nat.lt_succ_iff.mp ((Nat.div_lt_iff_lt_mul hl0).mpr h4)
  · obtain ⟨q, rr, hqr, hrl, hq⟩ :
        ∃ q rr, l * q + rr = t + l - 1 ∧ rr < l ∧ (t + l - 1) / l = q :=
      ⟨_, _, Nat.div_add_mod _ _, Nat.mod_lt _ hl0, rfl⟩
    rw [hq]
    clear hq
    have h1 : t ≤ l * q := by omega
    apply Nat.ceil_le.mpr
    rw [div_le_iff₀ hlq]
    calc (t : ℚ) ≤ ((l * q : ℕ) : ℚ) := by exact_mod_cast h1
      _ = (q : ℚ) * (l : ℚ) := by push_cast; ring

/-- The sort used for `ORDER BY "createdAt" DESC` really sorts descending. -/
theorem sortByCreatedDesc_sorted (l : List Task) :
    (sortByCreatedDesc l).Sorted (fun a b => b.createdAt ≤ a.createdAt) := by
  letI : IsTotal Task (fun a b => b.createdAt ≤ a.createdAt) :=
    ⟨fun a b => le_total b.createdAt a.createdAt⟩
  letI : IsTrans Task (fun a b => b.createdAt ≤ a.createdAt) :=
    ⟨fun _ _ _ hab hbc => le_trans hbc hab⟩
  exact List.sorted_insertionSort _ l

/-! ## Concrete fixtures used by counterexamples and witnesses -/

/-- A persisted task owned by client `"alice"`, assigned to tasker `"bob"`. -/
def baseTask : Task :=
  { id := "t1"
    title := "Fix my sink"
    description := "The kitchen sink leaks and needs repair"
    clientId := "alice"
    taskerId := some "bob"
    categoryId := "MAINTENANCE"
    addressId := "a1"
    scheduledAt := 100
    durationEstMins := 60
    status := TaskStatus.CREATED
    priority := TaskPriority.MEDIUM
    isUrgent := false
    priceGHS := 50
    platformFeeGHS := 3
    currency := "GHS"
    location := none
    createdAt := 10
    updatedAt := none }

/-- A creation draft passing every validator (title 11 chars, description 39
chars, price 50). -/
def baseDraft : TaskCreateRequest :=
  { title := "Fix my sink"
    description := "The kitchen sink leaks and needs repair"
    categoryId := "MAINTENANCE"
    addressId := "a1"
    scheduledAt := 100
    durationEstMins := 60
    priceGHS := 50 }

/-! ## C1 -/

/-- C1: the claim says `updateTask` is permitted exactly for the owning
CLIENT or the assigned TASKER, every other caller receiving Forbidden. In the
source the two ownership clauses are joined by `and`, which would need the
caller's role to equal both `"CLIENT"` and `"TASKER"`; the permission test is
therefore unsatisfiable and `update_task` never answers Forbidden for any
caller, any task and any patch — an ADMIN, a non-owner CLIENT and an
unassigned TASKER are all let through, contrary to the claim and to the
comment above the check in the source. -/
theorem update_task_never_forbidden (taskId : String) (r : TaskUpdateRequest)
    (caller : Caller) (now : Nat) (db : List Task) :
    update_task taskId r caller now db ≠ Except.error ApiError.Forbidden := by
  unfold update_task
  cases hf : db.find? (fun t => t.id == taskId) with
  | none => simp
  | some task =>
    have hforb := updateForbidden_eq_false caller task
    by_cases hu : hasUpdateFields r <;> simp [hforb, hu]

/-! ## C2 -/

/-- C2 counterexample: the claim says a TASKER presenting a valid draft is
rejected with Forbidden and nothing is persisted; in the source `create_task`
never consults the role, so the TASKER's create succeeds. -/
theorem create_task_tasker_allowed_cex :
    (create_task "task-1" 0 baseDraft ⟨"tasker-1", Role.TASKER⟩ []).isOk = true ∧
    create_task "task-1" 0 baseDraft ⟨"tasker-1", Role.TASKER⟩ [] ≠
      Except.error ApiError.Forbidden := by
  exact ⟨by decide, by decide⟩

/-- C2 amended: `create_task` performs no role check at all: every
authenticated caller — CLIENT, TASKER or ADMIN — whose draft passes
validation gets the task created, with `clientId` forced to the caller's
subject and status `CREATED`. -/
theorem create_task_any_role (newId : String) (now : Nat) (r : TaskCreateRequest)
    (caller : Caller) (db : List Task) (hv : validCreate r = true) :
    create_task newId now r caller db =
      Except.ok (mkTask newId now r caller, db ++ [mkTask newId now r caller]) ∧
    (mkTask newId now r caller).clientId = caller.userId ∧
    (mkTask newId now r caller).status = TaskStatus.CREATED := by
  refine ⟨?_, rfl, rfl⟩
  unfold create_task
  rw [hv]
  rfl

theorem create_task_any_role_witness :
    create_task "task-2" 3 baseDraft ⟨"admin-1", Role.ADMIN⟩ [] =
      Except.ok (mkTask "task-2" 3 baseDraft ⟨"admin-1", Role.ADMIN⟩,
        [] ++ [mkTask "task-2" 3 baseDraft ⟨"admin-1", Role.ADMIN⟩]) ∧
    (mkTask "task-2" 3 baseDraft ⟨"admin-1", Role.ADMIN⟩).clientId = "admin-1" ∧
    (mkTask "task-2" 3 baseDraft ⟨"admin-1", Role.ADMIN⟩).status = TaskStatus.CREATED :=
  create_task_any_role "task-2" 3 baseDraft ⟨"admin-1", Role.ADMIN⟩ [] (by decide)

/-! ## C3 -/

/-- C3 counterexample: the claim says any caller that is not a CLIENT
receives Forbidden from `cancelTask` even when its subject id coincides with
the task's `clientId`; in the source only the ids are compared, so a TASKER
whose subject id equals the owner's id cancels successfully. -/
theorem delete_task_role_ignored_cex :
    delete_task "t1" ⟨"alice", Role.TASKER⟩ 9 [baseTask] =
      Except.ok [{ baseTask with status := TaskStatus.CANCELLED, updatedAt := some 9 }] ∧
    delete_task "t1" ⟨"alice", Role.TASKER⟩ 9 [baseTask] ≠
      Except.error ApiError.Forbidden := by
  exact ⟨by decide, by decide⟩

/-- C3 amended: for an existing task, `delete_task` answers Forbidden exactly
when the caller's subject id differs from the task's `clientId`; the caller's
role and the task's status are never consulted. -/
theorem delete_task_owner_id_only (taskId : String) (caller : Caller) (now : Nat)
    (db : List Task) (task : Task)
    (hfind : db.find? (fun t => t.id == taskId) = some task) :
    delete_task taskId caller now db = Except.error ApiError.Forbidden ↔
      task.clientId ≠ caller.userId := by
  unfold delete_task
  rw [hfind]
  rcases eq_or_ne task.clientId caller.userId with h | h
  · simp [h]
  · have hb : (task.clientId == caller.userId) = false := by simpa using h
    simp [hb, h]

theorem delete_task_owner_id_only_witness :
    (delete_task "t1" ⟨"eve", Role.CLIENT⟩ 9 [baseTask] = Except.error ApiError.Forbidden ↔
      baseTask.clientId ≠ "eve") ∧
    (delete_task "t1" ⟨"alice", Role.TASKER⟩ 9 [baseTask] = Except.error ApiError.Forbidden ↔
      baseTask.clientId ≠ "alice") :=
  ⟨delete_task_owner_id_only "t1" ⟨"eve", Role.CLIENT⟩ 9 [baseTask] baseTask (by decide),
   delete_task_owner_id_only "t1" ⟨"alice", Role.TASKER⟩ 9 [baseTask] baseTask (by decide)⟩

/-! ## C4 -/

/-- C4: the claim says no operation can drive a persisted price below 10; in
the source `update_task` applies a truthy `priceGHS` patch without any
minimum-price validation, so the owning client updates the price of an
existing task from 50 down to 5, and 5 < 10 is persisted. -/
theorem update_task_price_below_minimum :
    update_task "t1" { priceGHS := some 5 } ⟨"alice", Role.CLIENT⟩ 7 [baseTask] =
      Except.ok [{ baseTask with priceGHS := 5, updatedAt := some 7 }] ∧
    ({ baseTask with priceGHS := 5, updatedAt := some 7 } : Task).priceGHS < 10 := by
  exact ⟨by decide, by decide⟩

/-! ## C5 -/

/-- C5: for every draft passing validation (hence with price ≥ 10) the create
succeeds and the persisted platform fee is exactly `price * 0.05`; moreover
the fee depends on nothing but the price — two creations with equal prices
persist equal fees, so the caller has no independent handle on the fee (the
request body has no fee field). -/
theorem create_task_fee_five_percent (newId : String) (now : Nat)
    (r : TaskCreateRequest) (caller : Caller) (db : List Task)
    (hv : validCreate r = true) :
    create_task newId now r caller db =
      Except.ok (mkTask newId now r caller, db ++ [mkTask newId now r caller]) ∧
    (mkTask newId now r caller).platformFeeGHS = r.priceGHS * (5 / 100) ∧
    (∀ (newId' : String) (now' : Nat) (r' : TaskCreateRequest) (caller' : Caller),
      r'.priceGHS = r.priceGHS →
      (mkTask newId' now' r' caller').platformFeeGHS =
        (mkTask newId now r caller).platformFeeGHS) := by
  refine ⟨?_, rfl, ?_⟩
  · unfold create_task
    rw [hv]
    rfl
  · intro newId' now' r' caller' hp
    simp [mkTask, computeFee, hp]

/-- A valid draft with price 100.00, for the fee witness. -/
def feeDraft : TaskCreateRequest :=
  { baseDraft with priceGHS := 100 }

theorem create_task_fee_five_percent_witness :
    (create_task "t5" 0 feeDraft ⟨"carol", Role.CLIENT⟩ [] =
      Except.ok (mkTask "t5" 0 feeDraft ⟨"carol", Role.CLIENT⟩,
        [] ++ [mkTask "t5" 0 feeDraft ⟨"carol", Role.CLIENT⟩]) ∧
    (mkTask "t5" 0 feeDraft ⟨"carol", Role.CLIENT⟩).platformFeeGHS =
      feeDraft.priceGHS * (5 / 100) ∧
    (∀ (newId' : String) (now' : Nat) (r' : TaskCreateRequest) (caller' : Caller),
      r'.priceGHS = feeDraft.priceGHS →
      (mkTask newId' now' r' caller').platformFeeGHS =
        (mkTask "t5" 0 feeDraft ⟨"carol", Role.CLIENT⟩).platformFeeGHS)) ∧
    (mkTask "t5" 0 feeDraft ⟨"carol", Role.CLIENT⟩).platformFeeGHS = 5 := by
  have h := create_task_fee_five_percent "t5" 0 feeDraft ⟨"carol", Role.CLIENT⟩ [] (by decide)
  refine ⟨h, ?_⟩
  rw [h.2.1]
  norm_num [feeDraft, baseDraft]

/-! ## C6 -/

/-- C6: a patch with no fields at all, sent by the owning client against an
existing task, is rejected with BadRequest; the error return carries no
updated store, so every stored field — `updatedAt` included — is untouched. -/
theorem update_task_empty_patch (taskId : String) (caller : Caller) (now : Nat)
    (db : List Task) (task : Task) (r : TaskUpdateRequest)
    (hfind : db.find? (fun t => t.id == taskId) = some task)
    (_hrole : caller.role = Role.CLIENT) (_hown : caller.userId = task.clientId)
    (h1 : r.title = none) (h2 : r.description = none) (h3 : r.scheduledAt = none)
    (h4 : r.durationEstMins = none) (h5 : r.priceGHS = none) (h6 : r.priority = none)
    (h7 : r.isUrgent = none) (h8 : r.status = none) :
    update_task taskId r caller now db = Except.error ApiError.BadRequest := by
  have hforb := updateForbidden_eq_false caller task
  have hu : hasUpdateFields r = false := by
    simp [hasUpdateFields, h1, h2, h3, h4, h5, h6, h7, h8, truthyStr, truthyInt, truthyRat]
  unfold update_task
  rw [hfind]
  simp [hforb, hu]

theorem update_task_empty_patch_witness :
    update_task "t1" {} ⟨"alice", Role.CLIENT⟩ 7 [baseTask] =
      Except.error ApiError.BadRequest :=
  update_task_empty_patch "t1" ⟨"alice", Role.CLIENT⟩ 7 [baseTask] baseTask {}
    (by decide) rfl (by decide) rfl rfl rfl rfl rfl rfl rfl rfl

/-! ## C7 -/

/-- C7: creation rejects with BadRequest exactly when the draft fails
validation, and validation passes exactly when the title has at least 5
characters, the description at least 20, and the price is at least 10 — so a
4-character title or price 9.99 fails while a 5-character title or price
10.00 passes; in the embedding the validation guard precedes the storage
insert. -/
theorem create_task_validation_iff (newId : String) (now : Nat)
    (r : TaskCreateRequest) (caller : Caller) (db : List Task) :
    (create_task newId now r caller db = Except.error ApiError.BadRequest ↔
      validCreate r = false) ∧
    (validCreate r = true ↔
      (5 ≤ r.title.length ∧ 20 ≤ r.description.length ∧ 10 ≤ r.priceGHS)) := by
  constructor
  · unfold create_task
    cases hv : validCreate r <;> simp
  · simp [validCreate, not_lt, and_assoc]

/-! ## C8 -/

/-- C8: for every filter, page ≥ 1 and limit in [1,50], the listing reports
the count of all matches ignoring pagination, returns the matches ordered by
creation time descending with the first `(page-1)*limit` skipped and at most
`limit` taken, and `totalPages` is the ceiling of `total / limit`. -/
theorem get_tasks_pagination (f : TaskSearchRequest) (db : List Task)
    (_hp : 1 ≤ f.page) (hl1 : 1 ≤ f.limit) (_hl50 : f.limit ≤ 50) :
    (get_tasks f db).total = (db.filter (matchesFilter f)).length ∧
    (get_tasks f db).data =
      ((sortByCreatedDesc (db.filter (matchesFilter f))).drop
        ((f.page - 1) * f.limit)).take f.limit ∧
    List.Perm (sortByCreatedDesc (db.filter (matchesFilter f))) (db.filter (matchesFilter f)) ∧
    (sortByCreatedDesc (db.filter (matchesFilter f))).Sorted
      (fun a b => b.createdAt ≤ a.createdAt) ∧
    (get_tasks f db).data.length ≤ f.limit ∧
    (get_tasks f db).totalPages = ⌈((get_tasks f db).total : ℚ) / (f.limit : ℚ)⌉₊ := by
  refine ⟨rfl, rfl, List.perm_insertionSort _ _, sortByCreatedDesc_sorted _, ?_, ?_⟩
  · exact List.length_take_le _ _
  · exact pages_eq_ceil _ _ hl1

/-- The page-2, size-2 query of the pagination witness. -/
def pageQuery : TaskSearchRequest :=
  { page := 2, limit := 2 }

/-- Five matching tasks with distinct creation times, for the witness. -/
def pageDb : List Task :=
  [{ baseTask with id := "p1", createdAt := 1 },
   { baseTask with id := "p2", createdAt := 2 },
   { baseTask with id := "p3", createdAt := 3 },
   { baseTask with id := "p4", createdAt := 4 },
   { baseTask with id := "p5", createdAt := 5 }]

theorem get_tasks_pagination_witness :
    (get_tasks pageQuery pageDb).total = (pageDb.filter (matchesFilter pageQuery)).length ∧
    (get_tasks pageQuery pageDb).data =
      ((sortByCreatedDesc (pageDb.filter (matchesFilter pageQuery))).drop
        ((pageQuery.page - 1) * pageQuery.limit)).take pageQuery.limit ∧
    List.Perm (sortByCreatedDesc (pageDb.filter (matchesFilter pageQuery)))
      (pageDb.filter (matchesFilter pageQuery)) ∧
    (sortByCreatedDesc (pageDb.filter (matchesFilter pageQuery))).Sorted
      (fun a b => b.createdAt ≤ a.createdAt) ∧
    (get_tasks pageQuery pageDb).data.length ≤ pageQuery.limit ∧
    (get_tasks pageQuery pageDb).totalPages =
      ⌈((get_tasks pageQuery pageDb).total : ℚ) / (pageQuery.limit : ℚ)⌉₊ :=
  get_tasks_pagination pageQuery pageDb (by decide) (by decide) (by decide)

/-! ## C9 -/

/-- Frame relation between a stored row and its successor after an update:
the non-updatable columns are equal, and each updatable column is equal
whenever the patch omits it. -/
def framePreserved (r : TaskUpdateRequest) (t t' : Task) : Prop :=
  t'.id = t.id ∧ t'.clientId = t.clientId ∧ t'.taskerId = t.taskerId ∧
  t'.platformFeeGHS = t.platformFeeGHS ∧ t'.currency = t.currency ∧
  t'.categoryId = t.categoryId ∧ t'.addressId = t.addressId ∧
  t'.createdAt = t.createdAt ∧ t'.location = t.location ∧
  (r.title = none → t'.title = t.title) ∧
  (r.description = none → t'.description = t.description) ∧
  (r.scheduledAt = none → t'.scheduledAt = t.scheduledAt) ∧
  (r.durationEstMins = none → t'.durationEstMins = t.durationEstMins) ∧
  (r.priceGHS = none → t'.priceGHS = t.priceGHS) ∧
  (r.priority = none → t'.priority = t.priority) ∧
  (r.isUrgent = none → t'.isUrgent = t.isUrgent) ∧
  (r.status = none → t'.status = t.status)

theorem framePreserved_refl (r : TaskUpdateRequest) (t : Task) : framePreserved r t t :=
  ⟨rfl, rfl, rfl, rfl, rfl, rfl, rfl, rfl, rfl, fun _ => rfl, fun _ => rfl, fun _ => rfl,
   fun _ => rfl, fun _ => rfl, fun _ => rfl, fun _ => rfl, fun _ => rfl⟩

theorem framePreserved_applyPatch (r : TaskUpdateRequest) (now : Nat) (t : Task) :
    framePreserved r t (applyPatch r now t) := by
  refine ⟨rfl, rfl, rfl, rfl, rfl, rfl, rfl, rfl, rfl, ?_, ?_, ?_, ?_, ?_, ?_, ?_, ?_⟩ <;>
    intro h <;> simp [applyPatch, h, truthyStr, truthyInt, truthyRat]

/-- C9: whenever `update_task` succeeds, every stored row is related to its
successor by the frame relation: `id`, `clientId`, `taskerId`,
`platformFeeGHS`, `currency`, `categoryId`, `addressId`, `createdAt` (and
`location`) are unchanged — in particular `clientId` is immutable — and any
updatable field missing from the patch is unchanged too. -/
theorem update_task_frame (taskId : String) (r : TaskUpdateRequest) (caller : Caller)
    (now : Nat) (db db' : List Task)
    (h : update_task taskId r caller now db = Except.ok db') :
    List.Forall₂ (framePreserved r) db db' := by
  unfold update_task at h
  cases hf : db.find? (fun t => t.id == taskId) with
  | none => rw [hf] at h; exact absurd h (by simp)
  | some task =>
    rw [hf] at h
    simp only [updateForbidden_eq_false, Bool.false_eq_true, if_false] at h
    by_cases hu : hasUpdateFields r
    · simp only [hu, Bool.not_true, Bool.false_eq_true, if_false] at h
      have hdb : db' = db.map (fun t => if t.id == taskId then applyPatch r now t else t) :=
        (Except.ok.inj h).symm
      subst hdb
      rw [List.forall₂_map_right_iff]
      rw [List.forall₂_same]
      intro t _
      by_cases ht : (t.id == taskId) = true
      · simp only [ht, if_pos]
        exact framePreserved_applyPatch r now t
      · simp only [ht, Bool.false_eq_true, if_false]
        exact framePreserved_refl r t
    · have hu' : hasUpdateFields r = false := by simpa using hu
      simp [hu'] at h

/-- The patch and updated row of the frame witness. -/
def framePatch : TaskUpdateRequest :=
  { title := some "Mend the sink" }

theorem update_task_frame_witness :
    List.Forall₂ (framePreserved framePatch) [baseTask]
      [{ baseTask with title := "Mend the sink", updatedAt := some 7 }] :=
  update_task_frame "t1" framePatch ⟨"alice", Role.CLIENT⟩ 7 [baseTask]
    [{ baseTask with title := "Mend the sink", updatedAt := some 7 }] (by decide)

/-! ## C10 -/

/-- C10: a patch field is applied only when its value is truthy, except
`isUrgent`, which is applied whenever it is non-null. A patch whose supplied
fields all carry falsy values (empty title or description, zero duration,
zero price) is exactly an empty patch for the handler: it is rejected with
BadRequest and nothing is written. With `isUrgent` supplied alongside falsy
values, the call succeeds and writes only `isUrgent` (even `false`) and the
`updatedAt` stamp — the falsy values never reach storage. -/
theorem update_task_truthy_fields (taskId : String) (caller : Caller) (now : Nat)
    (db : List Task) (task : Task)
    (hfind : db.find? (fun t => t.id == taskId) = some task) :
    (∀ r : TaskUpdateRequest,
      (r.title = none ∨ r.title = some "") →
      (r.description = none ∨ r.description = some "") →
      r.scheduledAt = none →
      (r.durationEstMins = none ∨ r.durationEstMins = some 0) →
      (r.priceGHS = none ∨ r.priceGHS = some 0) →
      r.priority = none → r.isUrgent = none → r.status = none →
      update_task taskId r caller now db = Except.error ApiError.BadRequest) ∧
    (∀ b : Bool,
      update_task taskId
        { title := some "", description := some "", scheduledAt := none,
          durationEstMins := some 0, priceGHS := some 0, priority := none,
          isUrgent := some b, status := none } caller now db =
        Except.ok (db.map (fun t =>
          if t.id == taskId then { t with isUrgent := b, updatedAt := some now } else t))) := by
  constructor
  · intro r h1 h2 h3 h4 h5 h6 h7 h8
    have hforb := updateForbidden_eq_false caller task
    have hu : hasUpdateFields r = false := by
      rcases h1 with h1 | h1 <;> rcases h2 with h2 | h2 <;> rcases h4 with h4 | h4 <;>
        rcases h5 with h5 | h5 <;>
        simp [hasUpdateFields, h1, h2, h3, h4, h5, h6, h7, h8, truthyStr, truthyInt, truthyRat]
    unfold update_task
    rw [hfind]
    simp [hforb, hu]
  · intro b
    have hforb := updateForbidden_eq_false caller task
    have hu : hasUpdateFields
        { title := some "", description := some "", scheduledAt := none,
          durationEstMins := some 0, priceGHS := some 0, priority := none,
          isUrgent := some b, status := none } = true := by
      simp [hasUpdateFields]
    have happ : ∀ t : Task,
        applyPatch
          { title := some "", description := some "", scheduledAt := none,
            durationEstMins := some 0, priceGHS := some 0, priority := none,
            isUrgent := some b, status := none } now t =
          { t with isUrgent := b, updatedAt := some now } := by
      intro t
      simp [applyPatch, truthyStr, truthyInt, truthyRat]
    unfold update_task
    rw [hfind]
    simp only [hforb, Bool.false_eq_true, if_false, hu, Bool.not_true, happ]

theorem update_task_truthy_fields_witness :
    ((∀ r : TaskUpdateRequest,
      (r.title = none ∨ r.title = some "") →
      (r.description = none ∨ r.description = some "") →
      r.scheduledAt = none →
      (r.durationEstMins = none ∨ r.durationEstMins = some 0) →
      (r.priceGHS = none ∨ r.priceGHS = some 0) →
      r.priority = none → r.isUrgent = none → r.status = none →
      update_task "t1" r ⟨"alice", Role.CLIENT⟩ 7 [baseTask] =
        Except.error ApiError.BadRequest) ∧
    (∀ b : Bool,
      update_task "t1"
        { title := some "", description := some "", scheduledAt := none,
          durationEstMins := some 0, priceGHS := some 0, priority := none,
          isUrgent := some b, status := none } ⟨"alice", Role.CLIENT⟩ 7 [baseTask] =
        Except.ok ([baseTask].map (fun t =>
          if t.id == "t1" then { t with isUrgent := b, updatedAt := some 7 } else t)))) :=
  update_task_truthy_fields "t1" ⟨"alice", Role.CLIENT⟩ 7 [baseTask] baseTask (by decide)

end TaskHub
